import Mathlib

/-!
Shallow embedding of the QBR generation-and-validation pipeline
(`src/components/qbr_generator.py`, `src/components/validator.py`,
`src/prompts/qbr_prompts.py`, and the batch loop of `src/app.py`).

Python numbers are embedded as exact rationals.  Where the source
distinguishes `int` from `float` via `isinstance` checks (the
percentage-normalization heuristics on `usage_growth_qoq` and
`automation_adoption_pct`), the embedding keeps the distinction with an
explicit tag (`PyNum`).  A Python dict of client fields becomes a
structure of `Option`-valued fields; `dict.get(k, default)` becomes
`Option.getD`.  Formatted strings that interpolate a data value are
embedded structurally: the constant text verbatim, plus the interpolated
numeric value as a separate field, so that citation claims can be stated
exactly.
-/

/-- A Python number: either an `int` or a `float`.  The source-code
`isinstance(x, float)` / `isinstance(x, (int, float))` tests are modeled
through this tag. -/
inductive PyNum where
  | int (n : ℤ)
  | float (q : ℚ)
deriving DecidableEq, Repr

/-- The numeric value of a `PyNum`. -/
def PyNum.val : PyNum → ℚ
  | .int n => (n : ℚ)
  | .float q => q

/-- `isinstance(x, float)`. -/
def PyNum.isFloat : PyNum → Bool
  | .int _ => false
  | .float _ => true

/-- The row of one customer, as the `client_data` dict consumed by the
generator: every field may be absent (`none`), exactly as a key may be
absent from the dict.  Field names follow `REQUIRED_COLUMNS` in
`src/app.py`. -/
structure ClientData where
  account_name : Option String := none
  plan_type : Option String := none
  active_users : Option ℚ := none
  usage_growth_qoq : Option PyNum := none
  automation_adoption_pct : Option PyNum := none
  tickets_last_quarter : Option ℚ := none
  avg_response_time : Option ℚ := none
  nps_score : Option ℚ := none
  preferred_channel : Option String := none
  scat_score : Option ℚ := none
  risk_engine_score : Option ℚ := none
  crm_notes : Option String := none
  feedback_summary : Option String := none
deriving DecidableEq, Repr

/-- `QBRGenerator.classify_story_type` (qbr_generator.py, lines 176-210).
Rule-based classification of the story arc of the account.  The `.get`
defaults (risk 0.5, growth 0, automation 0, nps 5, scat 50) and the
in-function percentage normalization are taken verbatim from the code. -/
def classify_story_type (d : ClientData) : String :=
  let risk : ℚ := d.risk_engine_score.getD (1/2)
  let growth0 : PyNum := d.usage_growth_qoq.getD (.int 0)
  let automation0 : PyNum := d.automation_adoption_pct.getD (.int 0)
  let nps : ℚ := d.nps_score.getD 5
  let scat : ℚ := d.scat_score.getD 50
  -- `if isinstance(growth,(int,float)) and abs(growth) > 1: growth /= 100`
  let growth : ℚ := if |growth0.val| > 1 then growth0.val / 100 else growth0.val
  -- `if isinstance(automation,(int,float)) and automation > 1: automation /= 100`
  let automation : ℚ :=
    if automation0.val > 1 then automation0.val / 100 else automation0.val
  if risk ≥ 1/2 ∨ growth < -(1/10) ∨ nps < 6 then "at_risk"
  else if risk < 3/10 ∧ growth > 1/10 ∧ automation > 1/2 ∧ nps > 7 then "growth"
  else if scat < 60 ∧ growth > 0 then "turnaround"
  else "stable"

/-- The churn-risk score actually used by the classifier (`.get` default 0.5). -/
def classifierRisk (d : ClientData) : ℚ := d.risk_engine_score.getD (1/2)

/-- The growth value after the normalization step inside the classifier. -/
def classifierGrowth (d : ClientData) : ℚ :=
  let g := (d.usage_growth_qoq.getD (.int 0)).val
  if |g| > 1 then g / 100 else g

/-- The automation value after the normalization step inside the classifier. -/
def classifierAutomation (d : ClientData) : ℚ :=
  let a := (d.automation_adoption_pct.getD (.int 0)).val
  if a > 1 then a / 100 else a

/-- The satisfaction (NPS) score used by the classifier (`.get` default 5). -/
def classifierNps (d : ClientData) : ℚ := d.nps_score.getD 5

/-- The health (SCAT) score used by the classifier (`.get` default 50). -/
def classifierScat (d : ClientData) : ℚ := d.scat_score.getD 50

-- ===========================================================================
-- Extractor value objects (Pydantic models of qbr_generator.py, lines 35-57)
-- ===========================================================================

/-- Sentiment tag of a `MetricHighlight`. -/
inductive Sentiment where
  | positive
  | neutral
  | negative
deriving DecidableEq, Repr

/-- Severity tag of a `RiskItem`. -/
inductive Severity where
  | low
  | medium
  | high
deriving DecidableEq, Repr

/-- Priority tag of an `ActionItem`. -/
inductive Priority where
  | immediate
  | shortTerm
  | longTerm
deriving DecidableEq, Repr

/-- A `data_signal` string of a `RiskItem`, embedded structurally: the
field name it mentions and, when the f-string interpolates a concrete
number, that number.  `risk_engine_score = {risk_score}` becomes
`⟨"risk_engine_score", some risk_score⟩`; the competitive-threat signal
`"feedback_summary contains risk keywords"` carries no number and
becomes `⟨"feedback_summary", none⟩`. -/
structure Citation where
  field : String
  value : Option ℚ
deriving DecidableEq, Repr

/-- `MetricHighlight` (qbr_generator.py, lines 35-40).  The formatted
`value` string is embedded as the number being formatted. -/
structure MetricHighlight where
  metric_name : String
  value : ℚ
  interpretation : String
  sentiment : Sentiment
deriving DecidableEq, Repr

/-- `RiskItem` (qbr_generator.py, lines 43-48).  The `description`
field of the source is a formatted English sentence whose data content
is the same number already carried by `data_signal`; it is not repeated
here. -/
structure RiskItem where
  risk_title : String
  severity : Severity
  data_signal : Citation
deriving DecidableEq, Repr

/-- `ActionItem` (qbr_generator.py, lines 51-57).  `rationale` is a
formatted English sentence in the source; its interpolated data value is
embedded as `rationale_value`. -/
structure ActionItem where
  action_title : String
  description : String
  rationale_value : Option ℚ
  owner : String
  priority : Priority
deriving DecidableEq, Repr

-- ===========================================================================
-- Extractor functions
-- ===========================================================================

/-- Python `str.lower()` (character-wise lowercasing). -/
def pyLower (s : String) : String := ⟨s.data.map Char.toLower⟩

/-- Python substring test `needle in hay`. -/
def strContains (hay needle : String) : Bool :=
  decide (List.IsInfix needle.data hay.data)

/-- `QBRGenerator._extract_metrics` (qbr_generator.py, lines 261-312).
Produces the four metric highlights.  The growth/automation
percentage-display normalization (`isinstance(x, float)` guarded) is
verbatim from the code. -/
def extract_metrics (d : ClientData) : List MetricHighlight :=
  let growth : PyNum := d.usage_growth_qoq.getD (.int 0)
  -- `if isinstance(growth, float) and abs(growth) <= 1: growth_pct = growth*100`
  let growth_pct : ℚ :=
    if growth.isFloat ∧ |growth.val| ≤ 1 then growth.val * 100 else growth.val
  let automation : PyNum := d.automation_adoption_pct.getD (.int 0)
  let automation_pct : ℚ :=
    if automation.isFloat ∧ automation.val ≤ 1 then automation.val * 100
    else automation.val
  let nps : ℚ := d.nps_score.getD 0
  let users : ℚ := d.active_users.getD 0
  let plan : String := d.plan_type.getD "Unknown"
  [ { metric_name := "Usage Growth (QoQ)"
      value := growth_pct
      interpretation :=
        if growth_pct > 10 then "Strong expansion"
        else if growth_pct < -5 then "Declining usage" else "Stable usage"
      sentiment :=
        if growth_pct > 5 then .positive
        else if growth_pct < -5 then .negative else .neutral },
    { metric_name := "Automation Adoption"
      value := automation_pct
      interpretation :=
        if automation_pct > 60 then "Power user"
        else if automation_pct < 30 then "Growth opportunity"
        else "Moderate adoption"
      sentiment :=
        if automation_pct > 50 then .positive
        else if automation_pct < 20 then .negative else .neutral },
    { metric_name := "NPS Score"
      value := nps
      interpretation :=
        if nps ≥ 8 then "Promoter" else if nps < 6 then "Detractor" else "Passive"
      sentiment :=
        if nps ≥ 8 then .positive else if nps < 6 then .negative else .neutral },
    { metric_name := "Active Users"
      value := users
      interpretation := plan ++ " tier with " ++
        (if users > 100 then "strong" else if users > 30 then "moderate"
         else "small") ++ " footprint"
      sentiment := if users > 50 then .positive else .neutral } ]

/-- `QBRGenerator._identify_risks` (qbr_generator.py, lines 314-370).
Five independent threshold checks, each appending one `RiskItem`. -/
def identify_risks (d : ClientData) : List RiskItem :=
  let risk_score : ℚ := d.risk_engine_score.getD 0
  let tickets : ℚ := d.tickets_last_quarter.getD 0
  let growth0 : PyNum := d.usage_growth_qoq.getD (.int 0)
  -- `if isinstance(growth, float) and abs(growth) <= 1: growth = growth*100`
  let growth : ℚ :=
    if growth0.isFloat ∧ |growth0.val| ≤ 1 then growth0.val * 100 else growth0.val
  let nps : ℚ := d.nps_score.getD 0
  let feedback : String := pyLower (d.feedback_summary.getD "")
  (if risk_score ≥ 1/2 then
    [{ risk_title := "Elevated Churn Risk"
       severity := if risk_score ≥ 7/10 then .high else .medium
       data_signal := ⟨"risk_engine_score", some risk_score⟩ }]
   else []) ++
  (if tickets > 50 then
    [{ risk_title := "High Support Volume"
       severity := if tickets > 80 then .high else .medium
       data_signal := ⟨"tickets_last_quarter", some tickets⟩ }]
   else []) ++
  (if growth < -5 then
    [{ risk_title := "Usage Decline"
       severity := if growth < -15 then .high else .medium
       data_signal := ⟨"usage_growth_qoq", some growth⟩ }]
   else []) ++
  (if nps < 6 then
    [{ risk_title := "Customer Dissatisfaction"
       severity := if nps < 5 then .high else .medium
       data_signal := ⟨"nps_score", some nps⟩ }]
   else []) ++
  (if strContains feedback "competitor" ∨ strContains feedback "leaving" ∨
      strContains feedback "cancel" ∨ strContains feedback "frustrated" then
    [{ risk_title := "Competitive Threat"
       severity := .high
       -- data_signal = "feedback_summary contains risk keywords": no value
       data_signal := ⟨"feedback_summary", none⟩ }]
   else [])

/-- The generic backfill item appended by `_build_recommendations` when
fewer than 3 rules triggered (qbr_generator.py, lines 434-441). -/
def quarterly_success_review : ActionItem :=
  { action_title := "Quarterly Success Review"
    description := "Document wins, gather feedback, and align on next quarter goals"
    rationale_value := none
    owner := "CSM"
    priority := .shortTerm }

/-- The five ordered recommendation rules of
`QBRGenerator._build_recommendations` (qbr_generator.py, lines 372-431),
in the order the source evaluates them; each triggered rule appends one
`ActionItem` to the running list. -/
def recommendation_rule_scan (d : ClientData) : List ActionItem :=
  let risk_score : ℚ := d.risk_engine_score.getD 0
  let automation0 : PyNum := d.automation_adoption_pct.getD (.int 0)
  -- `if isinstance(automation, float) and automation <= 1: automation *= 100`
  let automation : ℚ :=
    if automation0.isFloat ∧ automation0.val ≤ 1 then automation0.val * 100
    else automation0.val
  let feedback : String := d.feedback_summary.getD ""
  let nps : ℚ := d.nps_score.getD 0
  let tickets : ℚ := d.tickets_last_quarter.getD 0
  (if risk_score ≥ 1/2 then
      [{ action_title := "Executive Escalation Call"
         description := "Schedule urgent call with customer stakeholders to address concerns"
         rationale_value := some risk_score
         owner := "CSM"
         priority := .immediate }]
     else []) ++
    (if automation < 40 then
      [{ action_title := "Automation Workshop"
         description := "Host hands-on session showcasing automation recipes and templates"
         rationale_value := some automation
         owner := "CSM"
         priority := .shortTerm }]
     else []) ++
    (if strContains (pyLower feedback) "integration" ∨
        strContains (pyLower feedback) "connect" then
      [{ action_title := "Integration Deep-Dive"
         description := "Review integration requirements and demonstrate available connectors"
         rationale_value := none
         owner := "CSM"
         priority := .shortTerm }]
     else []) ++
    (if nps ≥ 8 ∧ risk_score < 3/10 then
      [{ action_title := "Expansion Discussion"
         description := "Explore additional use cases and team rollout opportunities"
         rationale_value := some nps
         owner := "CSM"
         priority := .shortTerm }]
     else []) ++
    (if tickets > 40 then
      [{ action_title := "Support Ticket Review"
         description := "Analyze ticket patterns and address root causes with product/support"
         rationale_value := some tickets
         owner := "Support"
         priority := if tickets > 70 then .immediate else .shortTerm }]
     else [])

/-- `QBRGenerator._build_recommendations` (qbr_generator.py, lines
372-443): the five-rule scan, then `if len(recommendations) < 3:` a
single generic backfill item is appended, then `return
recommendations[:3]`. -/
def build_recommendations (d : ClientData) : List ActionItem :=
  let recs := recommendation_rule_scan d
  let recs := if recs.length < 3 then recs ++ [quarterly_success_review] else recs
  recs.take 3

-- ===========================================================================
-- Prompt composer (src/prompts/qbr_prompts.py)
-- ===========================================================================

/-- The `formatted_data` mapping built by `get_full_qbr_prompt` /
`get_insight_prompt` (qbr_prompts.py, lines 497-539 and 542-576): the
merge of the `defaults` dict with the provided `client_data`, plus the
derived `tickets_per_user` field and the display-percentage conversion
of growth and automation.  The final Python step,
`FULL_QBR_PROMPT.format(**formatted_data)`, substitutes exactly these
keys into the (constant) template, every placeholder of which is covered
by `defaults`, so building this structure is the whole data-dependent
content of prompt construction. -/
structure PromptData where
  account_name : String
  plan_type : String
  active_users : ℚ
  usage_growth_qoq : ℚ
  automation_adoption_pct : ℚ
  tickets_last_quarter : ℚ
  avg_response_time : ℚ
  nps_score : ℚ
  preferred_channel : String
  scat_score : ℚ
  risk_engine_score : ℚ
  crm_notes : String
  feedback_summary : String
  tickets_per_user : ℚ
deriving DecidableEq, Repr

/-- Shared body of `get_full_qbr_prompt` and `get_insight_prompt`
(qbr_prompts.py, lines 497-539 / 542-576; both functions perform the
identical default-merge, ratio derivation and percentage conversion). -/
def build_prompt_data (d : ClientData) : PromptData :=
  -- `formatted_data = {**defaults, **client_data}`
  let users : ℚ := d.active_users.getD 0
  let tickets : ℚ := d.tickets_last_quarter.getD 0
  let growth : PyNum := d.usage_growth_qoq.getD (.int 0)
  let automation : PyNum := d.automation_adoption_pct.getD (.int 0)
  { account_name := d.account_name.getD "Unknown Account"
    plan_type := d.plan_type.getD "Unknown"
    active_users := users
    -- `if isinstance(g, float) and abs(g) <= 1: g = g*100`
    usage_growth_qoq :=
      if growth.isFloat ∧ |growth.val| ≤ 1 then growth.val * 100 else growth.val
    automation_adoption_pct :=
      if automation.isFloat ∧ automation.val ≤ 1 then automation.val * 100
      else automation.val
    tickets_last_quarter := tickets
    avg_response_time := d.avg_response_time.getD 0
    nps_score := d.nps_score.getD 0
    preferred_channel := d.preferred_channel.getD "Email"
    scat_score := d.scat_score.getD 0
    risk_engine_score := d.risk_engine_score.getD 0
    crm_notes := d.crm_notes.getD "No notes available."
    feedback_summary := d.feedback_summary.getD "No feedback recorded."
    -- `tickets / users if users > 0 else 0`
    tickets_per_user := if users > 0 then tickets / users else 0 }

/-- `get_full_qbr_prompt` (qbr_prompts.py, lines 497-539), at the level
of the data substituted into the constant template. -/
def get_full_qbr_prompt (d : ClientData) : PromptData := build_prompt_data d

/-- `get_insight_prompt` (qbr_prompts.py, lines 542-576); its
default-merge, ratio and conversion steps coincide with
those of `get_full_qbr_prompt`. -/
def get_insight_prompt (d : ClientData) : PromptData := build_prompt_data d

-- ===========================================================================
-- Validator (src/components/validator.py)
-- ===========================================================================

/-- A parsed JSON value, as produced by Python `json.loads`. -/
inductive JValue where
  | null
  | bool (b : Bool)
  | num (q : ℚ)
  | str (s : String)
  | arr (elems : List JValue)
  | obj (entries : List (String × JValue))

/-- Python `dict.get(key, default)` on the entry list of a JSON object. -/
def jGet (entries : List (String × JValue)) (key : String) (default : JValue) :
    JValue :=
  match entries.lookup key with
  | some v => v
  | none => default

/-- `ValidationResult` (validator.py, lines 136-146).  Python assigns the
raw values read from the judge JSON into the dataclass without type
enforcement, so the fields hold `JValue`s. -/
structure ValidationResult where
  passed : JValue
  overall_score : JValue
  critical_issues : JValue
  warnings : JValue
  checks : JValue
  improvement_hints : JValue
  raw_response : Option String := none
  error : Option String := none

/-- Outcome of the two library steps at the head of
`QBRValidator._parse_validation_response` (validator.py, lines 286-291):
`re.search` for a brace-delimited block either finds no
brace-delimited block (`noJsonObject`), or finds one whose text
`json.loads` rejects (`malformed`, carrying the exception message) or
parses (`wellFormed`, carrying the entries of the decoded object — the
pattern requires the text to start with `{` and end with `}`, so a
successful parse yields a dict). -/
inductive ParsedResponse where
  | noJsonObject
  | malformed (err : String)
  | wellFormed (entries : List (String × JValue))

/-- `QBRValidator._parse_validation_response` (validator.py, lines
281-313).  Returns `Except.error` for the `raise ValueError("No JSON
found in response")` path: that exception is NOT caught by the
own `except json.JSONDecodeError` clause of the function and propagates to
the caller. -/
def parse_validation_response (resp : ParsedResponse) (response_text : String) :
    Except String ValidationResult :=
  match resp with
  | .noJsonObject => .error "No JSON found in response"
  | .malformed e =>
      .ok { passed := .bool false
            overall_score := .num 0
            critical_issues := .arr [.str ("Failed to parse validation response: " ++ e)]
            warnings := .arr []
            checks := .obj []
            improvement_hints := .arr []
            raw_response := some response_text
            error := some e }
  | .wellFormed data =>
      .ok { passed := jGet data "validation_passed" (.bool false)
            overall_score := jGet data "overall_score" (.num 0)
            critical_issues := jGet data "critical_issues" (.arr [])
            warnings := jGet data "warnings" (.arr [])
            checks := jGet data "checks" (.obj [])
            improvement_hints := jGet data "improvement_hints" (.arr [])
            raw_response := some response_text }

/-- The response-handling tail of `QBRValidator.validate` (validator.py,
lines 227-244): the call to `_parse_validation_response` runs inside
the `try` of `validate`, whose `except Exception as e` clause converts any
escaping exception into a failed `ValidationResult` with a
`Validation error: ...` critical issue. -/
def validate_handle_response (resp : ParsedResponse) (response_text : String) :
    ValidationResult :=
  match parse_validation_response resp response_text with
  | .ok r => r
  | .error e =>
      { passed := .bool false
        overall_score := .num 0
        critical_issues := .arr [.str ("Validation error: " ++ e)]
        warnings := .arr []
        checks := .obj []
        improvement_hints := .arr []
        error := some e }

-- ===========================================================================
-- Batch generation loop (src/app.py, lines 1057-1074)
-- ===========================================================================

/-- One iteration of the `try`/`except` of the batch loop: generation
for the account either succeeds with a markdown document or raises, in which
case `batch_results[account] = f"Error generating QBR: {e}"` is recorded
instead.  `gen` abstracts `generator.generate_structured_qbr` together
with the row lookup, i.e. everything inside the `try` that can raise. -/
def process_account (gen : String → Except String String) (account : String) :
    Except String String :=
  match gen account with
  | .ok md => .ok md
  | .error e => .error ("Error generating QBR: " ++ e)

/-- The batch loop (`for idx, account in enumerate(selected_accounts)`,
app.py lines 1057-1074): every selected account is processed in order;
the per-account `except` keeps a failure local to its iteration, so the
loop never aborts early.  `batch_results` is modeled as the association
list of per-account outcomes in iteration order. -/
def batch_generate (gen : String → Except String String) :
    List String → List (String × Except String String)
  | [] => []
  | account :: rest => (account, process_account gen account) :: batch_generate gen rest

-- ===========================================================================
-- Auxiliary readings of the record, named for use in statements
-- ===========================================================================

/-- The growth value as the extractor reads it (qbr_generator.py, lines
266-270 and 339-341, identical logic in `_extract_metrics` and
`_identify_risks`): display-percentage normalization of
`usage_growth_qoq`. -/
def riskGrowthPct (d : ClientData) : ℚ :=
  let g := d.usage_growth_qoq.getD (.int 0)
  if g.isFloat ∧ |g.val| ≤ 1 then g.val * 100 else g.val

/-- The automation value as `_extract_metrics` reads it
(qbr_generator.py, lines 280-284): display-percentage normalization of
`automation_adoption_pct`. -/
def metricAutomationPct (d : ClientData) : ℚ :=
  let a := d.automation_adoption_pct.getD (.int 0)
  if a.isFloat ∧ a.val ≤ 1 then a.val * 100 else a.val

/-- Numeric rank of an `ActionItem` priority: immediate before
short-term before long-term. -/
def priorityRank : Priority → ℕ
  | .immediate => 0
  | .shortTerm => 1
  | .longTerm => 2

-- ===========================================================================
-- Concrete inputs used by witnesses and counterexamples
-- ===========================================================================

/-- The classifier-priority record of the spec: risk 0.6, growth 0.15,
automation 0.6, satisfaction 8 (floats, as a CSV load produces). -/
def priorityClashRecord : ClientData :=
  { risk_engine_score := some (6/10)
    usage_growth_qoq := some (.float (15/100))
    automation_adoption_pct := some (.float (6/10))
    nps_score := some 8 }

/-- The example-scenario record of the spec: plan Basic, 50 users, growth
-0.12, risk 0.55, satisfaction 5, tickets 60, automation 0.2. -/
def scenarioRecord : ClientData :=
  { plan_type := some "Basic"
    active_users := some 50
    usage_growth_qoq := some (.float (-(12/100)))
    risk_engine_score := some (55/100)
    nps_score := some 5
    tickets_last_quarter := some 60
    automation_adoption_pct := some (.float (2/10)) }

/-- A record on which no recommendation rule triggers: risk 0,
automation 50%, no feedback keywords, NPS 0, no tickets. -/
def noRuleRecord : ClientData :=
  { risk_engine_score := some 0
    automation_adoption_pct := some (.float (1/2))
    nps_score := some 0
    tickets_last_quarter := some 0 }

/-- A record whose discovered recommendations are a short-term item
followed by an immediate one: risk 0.3 (no escalation), automation 20%
(workshop, short-term), 75 tickets (support review, immediate). -/
def latePriorityRecord : ClientData :=
  { risk_engine_score := some (3/10)
    automation_adoption_pct := some (.float (2/10))
    nps_score := some 9
    tickets_last_quarter := some 75 }

/-- A record whose feedback mentions a competitor: triggers the
competitive-threat risk, whose data signal carries no concrete value. -/
def competitorRecord : ClientData :=
  { risk_engine_score := some (55/100)
    nps_score := some 7
    feedback_summary := some "Evaluating a competitor product" }

/-- The empty client dict: every required field absent. -/
def emptyRecord : ClientData := {}

/-- The division-by-zero record of the spec: `active_users = 0`,
`tickets_last_quarter = 5`. -/
def zeroUsersRecord : ClientData :=
  { active_users := some 0, tickets_last_quarter := some 5 }

/-- A modeled generation backend that fails on the second of three
accounts and succeeds on the others. -/
def failSecondGen (account : String) : Except String String :=
  if account = "acct2" then .error "API timeout"
  else .ok ("# QBR for " ++ account)

/-- A three-account batch. -/
def threeAccounts : List String := ["acct1", "acct2", "acct3"]

-- ===========================================================================
-- Claim theorems
-- ===========================================================================

/-- Claim C1: the classifier evaluates its rules in fixed priority order
with the at_risk rule first — whenever churn-risk ≥ 0.5 or normalized
growth < -0.10 or satisfaction < 6 it returns at_risk (even when the
growth conditions hold simultaneously); otherwise growth when churn-risk
< 0.3, growth > 0.10, automation > 0.5 and satisfaction > 7; otherwise
turnaround when health-score < 60 and growth > 0; otherwise stable. -/
theorem classify_story_type_priority_order (d : ClientData) :
    (classifierRisk d ≥ 1/2 ∨ classifierGrowth d < -(1/10) ∨ classifierNps d < 6 →
      classify_story_type d = "at_risk") ∧
    (¬(classifierRisk d ≥ 1/2 ∨ classifierGrowth d < -(1/10) ∨ classifierNps d < 6) →
      classifierRisk d < 3/10 ∧ classifierGrowth d > 1/10 ∧
        classifierAutomation d > 1/2 ∧ classifierNps d > 7 →
      classify_story_type d = "growth") ∧
    (¬(classifierRisk d ≥ 1/2 ∨ classifierGrowth d < -(1/10) ∨ classifierNps d < 6) →
      ¬(classifierRisk d < 3/10 ∧ classifierGrowth d > 1/10 ∧
        classifierAutomation d > 1/2 ∧ classifierNps d > 7) →
      classifierScat d < 60 ∧ classifierGrowth d > 0 →
      classify_story_type d = "turnaround") ∧
    (¬(classifierRisk d ≥ 1/2 ∨ classifierGrowth d < -(1/10) ∨ classifierNps d < 6) →
      ¬(classifierRisk d < 3/10 ∧ classifierGrowth d > 1/10 ∧
        classifierAutomation d > 1/2 ∧ classifierNps d > 7) →
      ¬(classifierScat d < 60 ∧ classifierGrowth d > 0) →
      classify_story_type d = "stable") := by
  simp only [classify_story_type, classifierRisk, classifierGrowth,
    classifierAutomation, classifierNps, classifierScat]
  split_ifs <;> refine ⟨?_, ?_, ?_, ?_⟩ <;> intros <;> first | rfl | tauto

/-- Witness for C1: the record with risk 0.6, growth 0.15, automation
0.6, satisfaction 8 — both risk and positive-growth signals — classifies
as at_risk. -/
theorem classify_story_type_priority_order_witness :
    classify_story_type priorityClashRecord = "at_risk" :=
  (classify_story_type_priority_order priorityClashRecord).1
    (by norm_num [classifierRisk, priorityClashRecord])

/-- Claim C2: a judge response without a well-formed JSON object — no
brace-delimited block at all, or one that `json.loads` rejects — always
yields a verdict with `passed = False` and a non-empty `critical_issues`
list, never `passed = True` (fail-closed). -/
theorem validator_fail_closed (resp : ParsedResponse) (txt : String)
    (h : ∀ entries, resp ≠ ParsedResponse.wellFormed entries) :
    (validate_handle_response resp txt).passed = JValue.bool false ∧
    ∃ msgs, (validate_handle_response resp txt).critical_issues = JValue.arr msgs ∧
      msgs ≠ [] := by
  cases resp with
  | noJsonObject =>
      exact ⟨rfl, ⟨[JValue.str "Validation error: No JSON found in response"], rfl, by simp⟩⟩
  | malformed e =>
      exact ⟨rfl, ⟨[JValue.str ("Failed to parse validation response: " ++ e)], rfl, by simp⟩⟩
  | wellFormed entries => exact absurd rfl (h entries)

/-- Witness for C2: a prose-only judge response (no JSON object) yields
a failed verdict with a non-empty critical-issue list. -/
theorem validator_fail_closed_witness :
    (validate_handle_response ParsedResponse.noJsonObject "Here is my verdict.").passed =
      JValue.bool false ∧
    ∃ msgs, (validate_handle_response ParsedResponse.noJsonObject
        "Here is my verdict.").critical_issues = JValue.arr msgs ∧ msgs ≠ [] :=
  validator_fail_closed ParsedResponse.noJsonObject "Here is my verdict."
    (fun _ hc => ParsedResponse.noConfusion hc)

/-- Counterexample to C3 as stated: on a record triggering no
recommendation rule, the backfill appends only ONE generic item, so the
returned list has length 1 — not the claimed minimum of 3. -/
theorem min_three_recommendations_cex :
    (build_recommendations noRuleRecord).length = 1 ∧
    ¬ 3 ≤ (build_recommendations noRuleRecord).length := by
  have hscan : recommendation_rule_scan noRuleRecord = [] := by
    norm_num [recommendation_rule_scan, noRuleRecord, PyNum.isFloat, PyNum.val,
      (by decide : strContains (pyLower "") "integration" = false),
      (by decide : strContains (pyLower "") "connect" = false)]
  rw [build_recommendations, hscan]
  norm_num

/-- Claim C3 as amended: the backfill guarantees at least one and at
most three recommendations for every record (a single generic follow-up
is appended when fewer than 3 rules triggered, which does not reach 3
when 0 or 1 rules fired). -/
theorem recommendations_between_one_and_three (d : ClientData) :
    1 ≤ (build_recommendations d).length ∧ (build_recommendations d).length ≤ 3 := by
  simp only [build_recommendations, List.length_take]
  constructor
  · by_cases h : (recommendation_rule_scan d).length < 3
    · rw [if_pos h]
      simp only [List.length_append, List.length_singleton]
      omega
    · rw [if_neg h]
      omega
  · by_cases h : (recommendation_rule_scan d).length < 3 <;>
      simp [h]

/-- Counterexample to C5 as stated: on a record whose rules discover a
short-term item (automation workshop) before an immediate one (support
review with more than 70 tickets), the returned list is NOT ordered with
immediate items first — no priority sort is applied. -/
theorem stable_priority_order_cex :
    ¬ (build_recommendations latePriorityRecord).Pairwise
        (fun x y => priorityRank x.priority ≤ priorityRank y.priority) := by
  have hscan : recommendation_rule_scan latePriorityRecord =
      [{ action_title := "Automation Workshop"
         description := "Host hands-on session showcasing automation recipes and templates"
         rationale_value := some 20
         owner := "CSM"
         priority := .shortTerm },
       { action_title := "Support Ticket Review"
         description := "Analyze ticket patterns and address root causes with product/support"
         rationale_value := some 75
         owner := "Support"
         priority := .immediate }] := by
    norm_num [recommendation_rule_scan, latePriorityRecord, PyNum.isFloat, PyNum.val,
      (by decide : strContains (pyLower "") "integration" = false),
      (by decide : strContains (pyLower "") "connect" = false)]
  rw [build_recommendations, hscan]
  intro hp
  norm_num [List.pairwise_cons, priorityRank] at hp

/-- Claim C5 as amended: the returned recommendations are the first
(up to) 3 items in rule-discovery order — the output is a prefix of the
rule scan followed by the generic backfill, and its length is the
minimum of 3 and the number of discovered items; no priority-based
reordering takes place. -/
theorem recommendations_discovery_order (d : ClientData) :
    (∃ rest, recommendation_rule_scan d ++ [quarterly_success_review] =
      build_recommendations d ++ rest) ∧
    (build_recommendations d).length =
      min 3 (if (recommendation_rule_scan d).length < 3 then
        (recommendation_rule_scan d).length + 1
        else (recommendation_rule_scan d).length) := by
  simp only [build_recommendations]
  constructor
  · by_cases h : (recommendation_rule_scan d).length < 3
    · rw [if_pos h]
      exact ⟨((recommendation_rule_scan d ++ [quarterly_success_review]).drop 3),
        (List.take_append_drop 3 _).symm⟩
    · rw [if_neg h]
      refine ⟨(recommendation_rule_scan d).drop 3 ++ [quarterly_success_review], ?_⟩
      rw [← List.append_assoc, List.take_append_drop]
  · by_cases h : (recommendation_rule_scan d).length < 3
    · rw [if_pos h, if_pos h]
      simp [List.length_take]
    · rw [if_neg h, if_neg h]
      simp [List.length_take]

/-- Claim C4 as amended: every `RiskItem` produced by the extractor
names, in its data signal, a field of the input record; the churn-risk,
support-volume and dissatisfaction items cite exactly the value of that
field as read from the record, the usage-decline item cites the
percentage-normalized reading of the growth field, and the
competitive-threat item names the feedback field without a concrete
value.  `MetricHighlight`s do not carry record field names or raw input
values: every record yields exactly the four fixed display labels, and
their values are the display-normalized readings of the corresponding
fields — percent-scaled growth and automation, and the raw NPS and
active-user readings. -/
theorem extractor_citations (d : ClientData) :
    (∀ item ∈ identify_risks d,
      (item.data_signal.field = "risk_engine_score" ∨
       item.data_signal.field = "tickets_last_quarter" ∨
       item.data_signal.field = "usage_growth_qoq" ∨
       item.data_signal.field = "nps_score" ∨
       item.data_signal.field = "feedback_summary") ∧
      (item.data_signal.field = "risk_engine_score" →
        item.data_signal.value = some (d.risk_engine_score.getD 0)) ∧
      (item.data_signal.field = "tickets_last_quarter" →
        item.data_signal.value = some (d.tickets_last_quarter.getD 0)) ∧
      (item.data_signal.field = "usage_growth_qoq" →
        item.data_signal.value = some (riskGrowthPct d)) ∧
      (item.data_signal.field = "nps_score" →
        item.data_signal.value = some (d.nps_score.getD 0)) ∧
      (item.data_signal.field = "feedback_summary" →
        item.data_signal.value = none)) ∧
    (extract_metrics d).map MetricHighlight.metric_name =
      ["Usage Growth (QoQ)", "Automation Adoption", "NPS Score", "Active Users"] ∧
    (extract_metrics d).map MetricHighlight.value =
      [riskGrowthPct d, metricAutomationPct d,
       d.nps_score.getD 0, d.active_users.getD 0] := by
  refine ⟨?_, rfl, rfl⟩
  intro item h
  simp only [identify_risks] at h
  replace h := List.mem_append.mp h
  rcases h with h | h
  · replace h := List.mem_append.mp h
    rcases h with h | h
    · replace h := List.mem_append.mp h
      rcases h with h | h
      · replace h := List.mem_append.mp h
        rcases h with h | h
        · split_ifs at h <;> simp at h <;> subst h <;> simp_all [riskGrowthPct]
        · split_ifs at h <;> simp at h <;> subst h <;> simp_all [riskGrowthPct]
      · split_ifs at h with hb hc1 hs1 hc2 hs2 <;> simp at h <;> subst h <;>
          simp_all [riskGrowthPct] <;>
          exact (if_neg (fun hx => absurd hx.2 (not_le.mpr (hb hx.1)))).symm
    · split_ifs at h <;> simp at h <;> subst h <;> simp_all [riskGrowthPct]
  · split_ifs at h <;> simp at h <;> subst h <;> simp_all [riskGrowthPct]

/-- Witness for C4 as amended: on the competitor-feedback record the
churn RiskItem cites the `risk_engine_score` field with exactly the
recorded value 0.55, and the four metric highlights carry the
display-normalized readings of that record. -/
theorem extractor_citations_witness :
    ({ risk_title := "Elevated Churn Risk", severity := Severity.medium,
       data_signal := ⟨"risk_engine_score", some (11/20)⟩ } : RiskItem).data_signal.value =
      some (competitorRecord.risk_engine_score.getD 0) ∧
    (extract_metrics competitorRecord).map MetricHighlight.value =
      [riskGrowthPct competitorRecord, metricAutomationPct competitorRecord,
       competitorRecord.nps_score.getD 0, competitorRecord.active_users.getD 0] := by
  have heval : identify_risks competitorRecord =
      [{ risk_title := "Elevated Churn Risk", severity := Severity.medium,
         data_signal := ⟨"risk_engine_score", some (11/20)⟩ },
       { risk_title := "Competitive Threat", severity := Severity.high,
         data_signal := ⟨"feedback_summary", none⟩ }] := by
    norm_num [identify_risks, competitorRecord, PyNum.isFloat, PyNum.val, abs_le,
      (by decide : strContains (pyLower "Evaluating a competitor product") "competitor" = true)]
  have h := extractor_citations competitorRecord
  exact ⟨(h.1 _ (by rw [heval]; simp)).2.1 rfl, h.2.2⟩

/-- Counterexample to C4 as stated: on the competitor-feedback record
the competitive-threat RiskItem carries no concrete cited value (its
data signal is the constant text `feedback_summary contains risk
keywords`); and on the example-scenario record, whose recorded growth
field holds exactly -0.12, the growth MetricHighlight carries the
display label `Usage Growth (QoQ)` — not a record field name — with the
percent-scaled value -12, so no produced highlight cites the recorded
value -0.12 exactly. -/
theorem extractor_citation_cex :
    (¬ (∀ item ∈ identify_risks competitorRecord,
        ∃ v : ℚ, item.data_signal.value = some v)) ∧
    (∃ m ∈ extract_metrics scenarioRecord,
      m.metric_name = "Usage Growth (QoQ)" ∧ m.value = -12) ∧
    scenarioRecord.usage_growth_qoq = some (PyNum.float (-(12/100))) ∧
    ¬ (∃ m ∈ extract_metrics scenarioRecord, m.value = -(12/100)) := by
  have heval : identify_risks competitorRecord =
      [{ risk_title := "Elevated Churn Risk", severity := Severity.medium,
         data_signal := ⟨"risk_engine_score", some (11/20)⟩ },
       { risk_title := "Competitive Threat", severity := Severity.high,
         data_signal := ⟨"feedback_summary", none⟩ }] := by
    norm_num [identify_risks, competitorRecord, PyNum.isFloat, PyNum.val, abs_le,
      (by decide : strContains (pyLower "Evaluating a competitor product") "competitor" = true)]
  have hmetrics : (extract_metrics scenarioRecord).map MetricHighlight.value =
      [-12, 20, 5, 50] := by
    norm_num [extract_metrics, scenarioRecord, PyNum.isFloat, PyNum.val, abs_le]
  refine ⟨?_, ?_, rfl, ?_⟩
  · intro hall
    obtain ⟨v, hv⟩ := hall
      { risk_title := "Competitive Threat", severity := Severity.high,
        data_signal := ⟨"feedback_summary", none⟩ } (by rw [heval]; simp)
    simp at hv
  · refine ⟨(extract_metrics scenarioRecord).head (by simp [extract_metrics]), ?_, ?_, ?_⟩
    · exact List.head_mem _
    · norm_num [extract_metrics, scenarioRecord, PyNum.isFloat, PyNum.val, abs_le]
    · norm_num [extract_metrics, scenarioRecord, PyNum.isFloat, PyNum.val, abs_le]
  · rintro ⟨m, hm, hv⟩
    have : m.value ∈ (extract_metrics scenarioRecord).map MetricHighlight.value :=
      List.mem_map_of_mem _ hm
    rw [hmetrics, hv] at this
    norm_num at this

/-- Counterexample to C6 as stated: on the empty record (every required
field absent), prompt construction and classification do not fail —
they silently substitute the defaults (0 for the prompt numerics, risk
0.5 for the classifier, which then returns at_risk). -/
theorem prompt_defaults_cex :
    (get_full_qbr_prompt emptyRecord).active_users = 0 ∧
    (get_full_qbr_prompt emptyRecord).tickets_last_quarter = 0 ∧
    (get_full_qbr_prompt emptyRecord).usage_growth_qoq = 0 ∧
    (get_full_qbr_prompt emptyRecord).nps_score = 0 ∧
    classify_story_type emptyRecord = "at_risk" := by
  norm_num [get_full_qbr_prompt, build_prompt_data, emptyRecord,
    classify_story_type, PyNum.val, PyNum.isFloat]

/-- Claim C6 as amended: prompt construction and classification are
total and substitute fixed defaults for absent numeric fields — 0 for
every prompt numeric, and risk 0.5 / satisfaction 5 / health 50 inside
the classifier — rather than signalling a validation error; missing
fields are rejected upstream (dataframe validation), not here. -/
theorem missing_fields_get_defaults (d : ClientData) :
    (d.active_users = none → (build_prompt_data d).active_users = 0) ∧
    (d.tickets_last_quarter = none → (build_prompt_data d).tickets_last_quarter = 0) ∧
    (d.usage_growth_qoq = none → (build_prompt_data d).usage_growth_qoq = 0) ∧
    (d.automation_adoption_pct = none → (build_prompt_data d).automation_adoption_pct = 0) ∧
    (d.avg_response_time = none → (build_prompt_data d).avg_response_time = 0) ∧
    (d.nps_score = none → (build_prompt_data d).nps_score = 0) ∧
    (d.scat_score = none → (build_prompt_data d).scat_score = 0) ∧
    (d.risk_engine_score = none → (build_prompt_data d).risk_engine_score = 0) ∧
    (d.risk_engine_score = none → classifierRisk d = 1/2) ∧
    (d.nps_score = none → classifierNps d = 5) ∧
    (d.scat_score = none → classifierScat d = 50) := by
  refine ⟨?_, ?_, ?_, ?_, ?_, ?_, ?_, ?_, ?_, ?_, ?_⟩ <;> intro h <;>
    simp [build_prompt_data, classifierRisk, classifierNps, classifierScat, h,
      PyNum.val, PyNum.isFloat]

/-- Witness for C6 as amended: on the empty record the prompt active
users default to 0 and the classifier risk defaults to 0.5. -/
theorem missing_fields_get_defaults_witness :
    (build_prompt_data emptyRecord).active_users = 0 ∧
    classifierRisk emptyRecord = 1/2 :=
  ⟨(missing_fields_get_defaults emptyRecord).1 rfl,
   (missing_fields_get_defaults emptyRecord).2.2.2.2.2.2.2.2.1 rfl⟩

/-- Claim C7: the derived tickets-per-user feature — in both the full
QBR prompt and the insight prompt — equals tickets divided by users
when users is positive, and is 0 when users is 0; the computation is
total (no division-by-zero fault). -/
theorem tickets_per_user_division_safety (d : ClientData) (u t : ℚ)
    (hu : d.active_users = some u) (ht : d.tickets_last_quarter = some t) :
    (u = 0 → (get_full_qbr_prompt d).tickets_per_user = 0 ∧
      (get_insight_prompt d).tickets_per_user = 0) ∧
    (0 < u → (get_full_qbr_prompt d).tickets_per_user * u = t ∧
      (get_insight_prompt d).tickets_per_user * u = t) := by
  simp only [get_full_qbr_prompt, get_insight_prompt, build_prompt_data, hu, ht,
    Option.getD_some]
  constructor
  · intro h; subst h; norm_num
  · intro h
    rw [if_pos h]
    constructor <;> field_simp

/-- Witness for C7: the record with `active_users = 0` and
`tickets_last_quarter = 5` yields tickets-per-user 0, not an error. -/
theorem tickets_per_user_division_safety_witness :
    (get_full_qbr_prompt zeroUsersRecord).tickets_per_user = 0 :=
  ((tickets_per_user_division_safety zeroUsersRecord 0 5 rfl rfl).1 rfl).1

/-- Claim C8: on the example-scenario record (plan Basic, 50 users,
growth -0.12, risk 0.55, satisfaction 5, tickets 60, automation 0.2)
the classifier returns at_risk, the risk list contains a medium-severity
churn-risk item (0.55 < 0.7) and a medium-severity support-volume item
(60 > 50 but not > 80), and the recommendations include the
immediate-priority executive-escalation action. -/
theorem example_scenario_end_to_end :
    classify_story_type scenarioRecord = "at_risk" ∧
    ({ risk_title := "Elevated Churn Risk", severity := Severity.medium,
       data_signal := ⟨"risk_engine_score", some (11/20)⟩ } : RiskItem) ∈
      identify_risks scenarioRecord ∧
    ({ risk_title := "High Support Volume", severity := Severity.medium,
       data_signal := ⟨"tickets_last_quarter", some 60⟩ } : RiskItem) ∈
      identify_risks scenarioRecord ∧
    ({ action_title := "Executive Escalation Call",
       description := "Schedule urgent call with customer stakeholders to address concerns",
       rationale_value := some (11/20), owner := "CSM",
       priority := Priority.immediate } : ActionItem) ∈
      build_recommendations scenarioRecord := by
  have hrisks : identify_risks scenarioRecord =
      [{ risk_title := "Elevated Churn Risk", severity := Severity.medium,
         data_signal := ⟨"risk_engine_score", some (11/20)⟩ },
       { risk_title := "High Support Volume", severity := Severity.medium,
         data_signal := ⟨"tickets_last_quarter", some 60⟩ },
       { risk_title := "Usage Decline", severity := Severity.medium,
         data_signal := ⟨"usage_growth_qoq", some (-12)⟩ },
       { risk_title := "Customer Dissatisfaction", severity := Severity.medium,
         data_signal := ⟨"nps_score", some 5⟩ }] := by
    norm_num [identify_risks, scenarioRecord, PyNum.isFloat, PyNum.val, abs_le,
      (by decide : strContains (pyLower "") "competitor" = false),
      (by decide : strContains (pyLower "") "leaving" = false),
      (by decide : strContains (pyLower "") "cancel" = false),
      (by decide : strContains (pyLower "") "frustrated" = false)]
  have hscan : recommendation_rule_scan scenarioRecord =
      [{ action_title := "Executive Escalation Call",
         description := "Schedule urgent call with customer stakeholders to address concerns",
         rationale_value := some (11/20), owner := "CSM",
         priority := Priority.immediate },
       { action_title := "Automation Workshop",
         description := "Host hands-on session showcasing automation recipes and templates",
         rationale_value := some 20, owner := "CSM",
         priority := Priority.shortTerm },
       { action_title := "Support Ticket Review",
         description := "Analyze ticket patterns and address root causes with product/support",
         rationale_value := some 60, owner := "Support",
         priority := Priority.shortTerm }] := by
    norm_num [recommendation_rule_scan, scenarioRecord, PyNum.isFloat, PyNum.val, abs_le,
      (by decide : strContains (pyLower "") "integration" = false),
      (by decide : strContains (pyLower "") "connect" = false)]
  refine ⟨?_, ?_, ?_, ?_⟩
  · norm_num [classify_story_type, scenarioRecord, PyNum.val]
  · rw [hrisks]; simp
  · rw [hrisks]; simp
  · rw [build_recommendations, hscan]; norm_num

/-- Claim C9: in the batch loop every selected account is processed —
the recorded outcome for an account is determined by its own generation
result alone (success keeps the document, failure records the
per-account error message), and the batch never aborts early: the
result list covers all accounts. -/
theorem batch_failure_isolated (gen : String → Except String String)
    (accounts : List String) (a : String) (h : a ∈ accounts) :
    (batch_generate gen accounts).lookup a = some (process_account gen a) ∧
    (batch_generate gen accounts).length = accounts.length := by
  constructor
  · induction accounts with
    | nil => cases h
    | cons b rest ih =>
      rw [batch_generate]
      rcases List.mem_cons.mp h with rfl | hmem
      · rw [List.lookup]; simp
      · by_cases hab : a = b
        · subst hab; rw [List.lookup]; simp
        · rw [List.lookup]
          simp only [beq_false_of_ne hab]
          exact ih hmem
  · clear h
    induction accounts with
    | nil => rfl
    | cons b rest ih => rw [batch_generate]; simpa using ih

/-- Witness for C9: with a backend failing on account 2 of 3, accounts
1 and 3 still get completed documents while account 2 records the
failure message. -/
theorem batch_failure_isolated_witness :
    (batch_generate failSecondGen threeAccounts).lookup "acct1" =
      some (Except.ok "# QBR for acct1") ∧
    (batch_generate failSecondGen threeAccounts).lookup "acct2" =
      some (Except.error "Error generating QBR: API timeout") ∧
    (batch_generate failSecondGen threeAccounts).lookup "acct3" =
      some (Except.ok "# QBR for acct3") := by
  have h1 := (batch_failure_isolated failSecondGen threeAccounts "acct1"
    (by simp [threeAccounts])).1
  have h2 := (batch_failure_isolated failSecondGen threeAccounts "acct2"
    (by simp [threeAccounts])).1
  have h3 := (batch_failure_isolated failSecondGen threeAccounts "acct3"
    (by simp [threeAccounts])).1
  rw [h1, h2, h3]
  refine ⟨?_, ?_, ?_⟩
  · rw [process_account, failSecondGen, if_neg (by decide)]
    rfl
  · rw [process_account, failSecondGen, if_pos rfl]
    rfl
  · rw [process_account, failSecondGen, if_neg (by decide)]
    rfl

/-- Claim C10: when the judge response is well-formed JSON, each
missing key falls back to its fail-closed default — `passed` to False,
`overall_score` to 0, the issue lists to empty — and a verdict with the
boolean True in `passed` can only arise when the JSON object explicitly
maps `validation_passed` to True. -/
theorem parse_defaults_fail_closed (entries : List (String × JValue)) (txt : String) :
    (entries.lookup "validation_passed" = none →
      (validate_handle_response (ParsedResponse.wellFormed entries) txt).passed =
        JValue.bool false) ∧
    (entries.lookup "overall_score" = none →
      (validate_handle_response (ParsedResponse.wellFormed entries) txt).overall_score =
        JValue.num 0) ∧
    (entries.lookup "critical_issues" = none →
      (validate_handle_response (ParsedResponse.wellFormed entries) txt).critical_issues =
        JValue.arr []) ∧
    (entries.lookup "warnings" = none →
      (validate_handle_response (ParsedResponse.wellFormed entries) txt).warnings =
        JValue.arr []) ∧
    ((validate_handle_response (ParsedResponse.wellFormed entries) txt).passed =
        JValue.bool true →
      entries.lookup "validation_passed" = some (JValue.bool true)) := by
  simp only [validate_handle_response, parse_validation_response, jGet]
  refine ⟨?_, ?_, ?_, ?_, ?_⟩ <;> intro h
  · rw [h]
  · rw [h]
  · rw [h]
  · rw [h]
  · cases hl : entries.lookup "validation_passed" with
    | none => rw [hl] at h; cases h
    | some v =>
        rw [hl] at h
        simp only at h
        rw [h]

/-- Witness for C10: a JSON verdict containing only an overall score
(no `validation_passed` key) parses to a failed verdict. -/
theorem parse_defaults_fail_closed_witness :
    (validate_handle_response
      (ParsedResponse.wellFormed [("overall_score", JValue.num 80)])
      "a verdict carrying only an overall score").passed = JValue.bool false :=
  (parse_defaults_fail_closed [("overall_score", JValue.num 80)]
    "a verdict carrying only an overall score").1 (by simp [List.lookup])
